import Mathlib

/-!
Shallow embedding of `math_agent/agent.py` (class `MathAgent`).

The Python class drives a workflow-planning-and-execution loop.  Its external
collaborators (the `cerebrum` base class's `send_request` language-model
transport, `check_workflow` validator, `pre_select_tools` tool selector, the
configuration's `description` field and `tool_info`) are modelled as an
oracle record `Env`.  Python exceptions are modelled with `Except Exn`;
because a Python exception leaves already-performed mutations in place, every
fallible operation returns the mutated `AgentState` alongside the
`Except`-result.  Timestamps (`datetime.now().isoformat()`) are modelled by a
monotone counter `clock` carried in the state.  Console `print` calls have no
observable effect and are dropped.  Each issued language-model request and
each tool-selection call is additionally recorded in an observation `trace`
so that "issues N requests" / "never triggers tool resolution" are statable.
-/

namespace MathAgentModel

/-- A Python exception: `str(e)` and `traceback.format_exc()`. -/
structure Exn where
  msg : String
  tb : String
deriving DecidableEq

/-- One conversation entry `{"role": ..., "content": ...}`. -/
structure Message where
  role : String
  content : String
deriving DecidableEq

/-- One workflow step `{"action_type": ..., "action": ..., "tool_use": [...]}`. -/
structure Step where
  action_type : String
  action : String
  tool_use : List String
deriving DecidableEq

/-- A workflow is an ordered list of steps. -/
abbrev Workflow := List Step

/-- One entry of `debug_logs`: `_log_debug` produces `type = "debug"` with no
`error`/`traceback` keys; `_log_error` with an exception produces
`type = "error"` carrying `str(e)` and the captured stack trace. -/
structure LogEntry where
  type : String
  message : String
  timestamp : Nat
  error : Option String := none
  traceback : Option String := none
deriving DecidableEq

/-- The payload of an `LLMQuery(...)` construction (fields not passed at a
call site are `none`). -/
structure LLMQuery where
  messages : List Message
  tools : Option (List String)
  action_type : Option String
  message_return_type : Option String
deriving DecidableEq

/-- Observable calls to the external collaborators. -/
inductive Event where
  | llmCall (query : LLMQuery)
  | toolSelect (names : List String)
deriving DecidableEq

/-- The instance fields of `MathAgent` (plus the modelling fields `clock`,
`llm_calls`, `trace`). -/
structure AgentState where
  agent_name : String
  task_input : String
  plan_max_fail_times : Nat
  tool_call_max_fail_times : Nat
  messages : List Message
  workflow_mode : String
  rounds : Nat
  status : String
  debug_logs : List LogEntry
  clock : Nat
  llm_calls : Nat
  trace : List Event
deriving DecidableEq

/-- The dict returned by `run` (all four exit points).  `result` is always a
present key in the source; `error` is present only in the top-level
exception handler's dict. -/
structure RunResult where
  agent_name : String
  result : Option String
  rounds : Nat
  status : String
  error : Option String := none
  debug_logs : List LogEntry
deriving DecidableEq

/-- The dict returned by `get_status` (normal or degraded).  Keys absent in
the degraded snapshot (`rounds`, `workflow_mode`) are `none` there. -/
structure StatusInfo where
  agent_name : String
  status : String
  rounds : Option Nat := none
  workflow_mode : Option String := none
  error : Option String := none
  debug_logs : List LogEntry
  timestamp : Nat
deriving DecidableEq

/-- The external collaborators.  `sendRequest` receives the 0-based index of
the call (how many requests were issued before it) so that behaviours such
as "the second step's request raises" are expressible; `checkWorkflow` is
the inherited validator; `preSelectTools` the inherited tool selector;
`config_description` models `"".join(["".join(self.config["description"])])`
and `tool_info_json` models `json.dumps(self.tool_info)`, either of which
may raise. -/
structure Env where
  sendRequest : Nat → LLMQuery → Except Exn String
  checkWorkflow : String → Option Workflow
  preSelectTools : List String → Except Exn (List String)
  config_description : Except Exn String
  tool_info_json : Except Exn String

/-- `_log_debug`: append a debug entry. -/
def log_debug (message : String) (s : AgentState) : AgentState :=
  { s with
    debug_logs := s.debug_logs ++
      [{ type := "debug", message := message, timestamp := s.clock }],
    clock := s.clock + 1 }

/-- `_log_error`: append an error entry, with `str(e)` and traceback when an
exception object is passed. -/
def log_error (message : String) (e : Option Exn) (s : AgentState) : AgentState :=
  match e with
  | none =>
      { s with
        debug_logs := s.debug_logs ++
          [{ type := "error", message := message, timestamp := s.clock }],
        clock := s.clock + 1 }
  | some ex =>
      { s with
        debug_logs := s.debug_logs ++
          [{ type := "error", message := message, timestamp := s.clock,
             error := some ex.msg, traceback := some ex.tb }],
        clock := s.clock + 1 }

/-- `_update_status`: overwrite `status` and log the transition
`old -> new`. -/
def update_status (new_status : String) (s : AgentState) : AgentState :=
  log_debug ("Status changed: " ++ s.status ++ " -> " ++ new_status)
    { s with status := new_status }

/-- `__init__` (after the base-class call): field initialisation and the two
initial debug entries. -/
def initAgent (agent_name task_input : String) : AgentState :=
  let s : AgentState :=
    { agent_name := agent_name, task_input := task_input,
      plan_max_fail_times := 3, tool_call_max_fail_times := 3,
      messages := [], workflow_mode := "manual", rounds := 0,
      status := "initialized", debug_logs := [], clock := 0,
      llm_calls := 0, trace := [] }
  let s := log_debug
    ("MathAgent initialized with name: " ++ agent_name ++ ", task: " ++ task_input) s
  log_debug ("Initial status: " ++ s.status) s

/-- The body of `get_status`'s `try` block.  The snapshot dict holds a
reference to `self.debug_logs`, so the `"Status requested"` entry appended
inside the block is visible through the returned snapshot.  `fault` models
an exception raised while the snapshot is assembled/serialised (the
`json.dumps` of the status print). -/
def get_status_try (fault : Option Exn) (s : AgentState) :
    AgentState × Except Exn StatusInfo :=
  let s1 := log_debug "Status requested" s
  match fault with
  | some e => (s1, .error e)
  | none =>
      (s1, .ok { agent_name := s.agent_name, status := s.status,
                 rounds := some s.rounds, workflow_mode := some s.workflow_mode,
                 debug_logs := s1.debug_logs, timestamp := s.clock })

/-- `get_status`: the `try` body with its `except` handler.  An `.error`
outcome would mean an exception propagated to the caller; the handler
converts every failure into a degraded `.ok` snapshot. -/
def get_status (fault : Option Exn) (s : AgentState) :
    AgentState × Except Exn StatusInfo :=
  let p := get_status_try fault s
  match p.2 with
  | .ok info => (p.1, .ok info)
  | .error e =>
      let s2 := log_error ("Error getting status: " ++ e.msg) (some e) p.1
      (s2, .ok { agent_name := s2.agent_name, status := "error",
                 error := some e.msg, debug_logs := s2.debug_logs,
                 timestamp := s2.clock })

/-- The `plan_instruction` prompt assembled in `build_system_instruction`
(`"".join([...])` of the literal fragments, with `json.dumps(self.tool_info)`
spliced in). -/
def planInstruction (toolInfoJson : String) : String :=
  "You are given the available tools from the tool list: " ++ toolInfoJson ++
  " to help you solve problems. " ++
  "Generate a plan with comprehensive yet minimal steps to fulfill the task. " ++
  "The plan must follow the json format as below: " ++
  "[" ++
  "\x7b\"action_type\": \"action_type_value\", \"action\": \"action_value\",\"tool_use\": [tool_name1, tool_name2,...]\x7d" ++
  "\x7b\"action_type\": \"action_type_value\", \"action\": \"action_value\", \"tool_use\": [tool_name1, tool_name2,...]\x7d" ++
  "..." ++
  "]" ++
  "In each step of the planned plan, identify tools to use and recognize no tool is necessary. " ++
  "Followings are some plan examples. " ++
  "[[" ++
  "\x7b\"action_type\": \"tool_use\", \"action\": \"gather information from arxiv. \", \"tool_use\": [\"arxiv\"]\x7d," ++
  "\x7b\"action_type\": \"chat\", \"action\": \"write a summarization based on the gathered information. \", \"tool_use\": []\x7d" ++
  "];" ++
  "[" ++
  "\x7b\"action_type\": \"tool_use\", \"action\": \"gather information from arxiv. \", \"tool_use\": [\"arxiv\"]\x7d," ++
  "\x7b\"action_type\": \"chat\", \"action\": \"understand the current methods and propose ideas that can improve \", \"tool_use\": []\x7d" ++
  "]" ++
  "]"

/-- `build_system_instruction`.  The `prefix` string comes from the
configuration, the plan instruction from `tool_info`; either access may
raise and is then handled by the method's `except` (log, status `error`,
return `False`).  A `workflow_mode` that is neither `"manual"` nor
`"automatic"` fails the `assert`, likewise caught (an `AssertionError` whose
`str` is empty). -/
def build_system_instruction (env : Env) (s : AgentState) : AgentState × Bool :=
  let s := update_status "building_system_instruction" s
  match env.config_description with
  | .error e =>
      (update_status "error" (log_error "Error in build_system_instruction" (some e) s), false)
  | .ok pfx =>
      match env.tool_info_json with
      | .error e =>
          (update_status "error" (log_error "Error in build_system_instruction" (some e) s), false)
      | .ok tij =>
          if s.workflow_mode == "manual" then
            (update_status "system_instruction_built"
              { s with messages := s.messages ++ [{ role := "system", content := pfx }] },
             true)
          else if s.workflow_mode == "automatic" then
            (update_status "system_instruction_built"
              { s with messages := s.messages ++
                  [{ role := "system", content := pfx },
                   { role := "user", content := planInstruction tij }] },
             true)
          else
            (update_status "error"
              (log_error "Error in build_system_instruction" (some { msg := "", tb := "" }) s),
             false)

/-- The fixed three-step template returned by `manual_workflow`. -/
def manualTemplate : Workflow :=
  [ { action_type := "tool_use",
      action := "Search for relevant mathematical concepts and formulas",
      tool_use := ["demo_author/arxiv"] },
    { action_type := "chat",
      action := "Analyze the mathematical problem and provide solution steps",
      tool_use := [] },
    { action_type := "chat",
      action := "Calculate and verify the final answer",
      tool_use := [] } ]

/-- `manual_workflow`: two status transitions around returning the fixed
template.  Its `try` body is built from constants and cannot raise, so the
`except` branch is dead. -/
def manual_workflow (s : AgentState) : AgentState × Option Workflow :=
  let s := update_status "generating_workflow" s
  let s := update_status "workflow_generated" s
  (s, some manualTemplate)

/-- The failure notice appended to the conversation after a rejected
planning attempt (`i` is the 1-based attempt number). -/
def failNotice (i : Nat) : Message :=
  { role := "assistant",
    content := "Fail " ++ toString i ++
      " times to generate a valid plan. I need to regenerate a plan" }

/-- Python truthiness of the validator's return value: `None` and the empty
list are falsy. -/
def truthy (w : Option Workflow) : Bool :=
  match w with
  | none => false
  | some [] => false
  | some (_ :: _) => true

/-- The `for i in range(...)` loop of `automatic_workflow`: `n` remaining
attempts, `i` attempts already made.  Each attempt issues one request
(recorded in the trace), validates the response, increments `rounds`
regardless of outcome, and on rejection appends the failure notice and
retries.  Exhaustion sets status `workflow_generation_failed` and returns
`None`.  A transport exception escapes to the method's handler. -/
def automatic_attempts (env : Env) (n : Nat) (i : Nat) (s : AgentState) :
    AgentState × Except Exn (Option Workflow) :=
  match n with
  | 0 => (update_status "workflow_generation_failed" s, .ok none)
  | n + 1 =>
      let query : LLMQuery :=
        { messages := s.messages, tools := none, action_type := none,
          message_return_type := some "json" }
      let idx := s.llm_calls
      let s := { s with trace := s.trace ++ [Event.llmCall query],
                        llm_calls := s.llm_calls + 1 }
      match env.sendRequest idx query with
      | .error e => (s, .error e)
      | .ok resp =>
          let wf := env.checkWorkflow resp
          let s := { s with rounds := s.rounds + 1 }
          if truthy wf then
            (update_status "workflow_generated" s, .ok wf)
          else
            automatic_attempts env n (i + 1)
              { s with messages := s.messages ++ [failNotice (i + 1)] }

/-- `automatic_workflow`: status `generating_workflow`, then the retry loop;
its `except` converts any exception into a `None` return after logging and
status `error`. -/
def automatic_workflow (env : Env) (s : AgentState) : AgentState × Option Workflow :=
  let s := update_status "generating_workflow" s
  let p := automatic_attempts env s.plan_max_fail_times 0 s
  match p.2 with
  | .ok wf => (p.1, wf)
  | .error e =>
      (update_status "error" (log_error "Error in automatic_workflow" (some e) p.1), none)

/-- Lines 110-116 of `run`: obtain a workflow according to the mode; in
automatic mode the conversation is truncated to its first entry
(`self.messages = self.messages[:1]`) right after planning, whatever
planning returned. -/
def obtainWorkflow (env : Env) (s : AgentState) : AgentState × Option Workflow :=
  if s.workflow_mode == "automatic" then
    let p := automatic_workflow env s
    ({ p.1 with messages := p.1.messages.take 1 }, p.2)
  else
    manual_workflow s

/-- Lines 107-116 of `run`: append the task input as a user message, then
obtain the workflow (with the automatic-mode truncation). -/
def planningPhase (env : Env) (s : AgentState) : AgentState × Option Workflow :=
  obtainWorkflow env
    { s with messages := s.messages ++ [{ role := "user", content := s.task_input }] }

/-- The per-step user prompt. -/
def stepPrompt (i : Nat) (step : Step) : Message :=
  { role := "user",
    content := "At step " ++ toString (i + 1) ++ ", you need to: " ++
      step.action ++ ". " }

/-- The tail of one loop iteration: build the query, issue the request
(recorded in the trace), append the assistant reply, increment `rounds`.
A transport exception aborts with the state as mutated so far. -/
def exec_step_send (env : Env) (step : Step) (tools : Option (List String))
    (s : AgentState) : AgentState × Except Exn Unit :=
  let query : LLMQuery :=
    { messages := s.messages, tools := tools,
      action_type := some step.action_type, message_return_type := none }
  let idx := s.llm_calls
  let s := { s with trace := s.trace ++ [Event.llmCall query],
                    llm_calls := s.llm_calls + 1 }
  match env.sendRequest idx query with
  | .error e => (s, .error e)
  | .ok resp =>
      let s : AgentState := { s with messages := s.messages ++
        [{ role := "assistant", content := resp }] }
      let s : AgentState := { s with rounds := s.rounds + 1 }
      (s, .ok ())

/-- One iteration of the per-step loop (0-based `i`): log, append the step
prompt, resolve tools only when `tool_use` is non-empty (Python truthiness),
then send. -/
def exec_step (env : Env) (i : Nat) (step : Step) (s : AgentState) :
    AgentState × Except Exn Unit :=
  let s := log_debug ("Executing step " ++ toString (i + 1) ++ ": " ++ step.action) s
  let s := { s with messages := s.messages ++ [stepPrompt i step] }
  if step.tool_use.isEmpty then
    exec_step_send env step none s
  else
    let s := { s with trace := s.trace ++ [Event.toolSelect step.tool_use] }
    match env.preSelectTools step.tool_use with
    | .error e => (s, .error e)
    | .ok tools => exec_step_send env step (some tools) s

/-- The whole per-step loop; there is no per-step recovery, so the first
exception aborts the remaining steps. -/
def exec_steps (env : Env) (i : Nat) (steps : List Step) (s : AgentState) :
    AgentState × Except Exn Unit :=
  match steps with
  | [] => (s, .ok ())
  | step :: rest =>
      let p := exec_step env i step s
      match p.2 with
      | .ok _ => exec_steps env (i + 1) rest p.1
      | .error e => (p.1, .error e)

/-- `json.dumps` escaping for one character (the cases that can occur in
this program's strings). -/
def jsonEscapeChar (c : Char) : List Char :=
  if c = '\\' then ['\\', '\\']
  else if c = '"' then ['\\', '"']
  else if c = '\n' then ['\\', 'n']
  else if c = '\t' then ['\\', 't']
  else if c = '\r' then ['\\', 'r']
  else [c]

/-- `json.dumps` of a string. -/
def jsonStr (s : String) : String :=
  "\"" ++ String.mk ((s.data.map jsonEscapeChar).flatten) ++ "\""

/-- `json.dumps` of a list of strings (default separators). -/
def jsonStrList (l : List String) : String :=
  "[" ++ String.intercalate ", " (l.map jsonStr) ++ "]"

/-- `json.dumps` of one step dict (insertion order of the keys). -/
def stepToJson (st : Step) : String :=
  "\x7b\"action_type\": " ++ jsonStr st.action_type ++
  ", \"action\": " ++ jsonStr st.action ++
  ", \"tool_use\": " ++ jsonStrList st.tool_use ++ "\x7d"

/-- `json.dumps` of a workflow. -/
def workflowToJson (w : Workflow) : String :=
  "[" ++ String.intercalate ", " (w.map stepToJson) ++ "]"

/-- The `[Thinking]` user message summarising the accepted workflow
(line 129-134 of `run`). -/
def thinkingMsg (w : Workflow) : Message :=
  { role := "user",
    content := "[Thinking]: The workflow generated for the problem is " ++
      workflowToJson w ++
      ". Follow the workflow to solve the problem step by step. " }

/-- Lines 129-175 of `run`: append the workflow summary, transition to
`executing_workflow`, run the step loop (any exception escapes), read the
final result from the last conversation entry (`self.messages[-1]`, an
`IndexError` if the conversation were empty), transition to `completed` and
build the success result. -/
def execute_workflow (env : Env) (workflow : Workflow) (s : AgentState) :
    AgentState × Except Exn RunResult :=
  let s := { s with messages := s.messages ++ [thinkingMsg workflow] }
  let s := update_status "executing_workflow" s
  let p := exec_steps env 0 workflow s
  match p.2 with
  | .error e => (p.1, .error e)
  | .ok _ =>
      match p.1.messages.getLast? with
      | none => (p.1, .error { msg := "list index out of range", tb := "IndexError" })
      | some m =>
          let s := update_status "completed" p.1
          (s, .ok { agent_name := s.agent_name,
                    result := some m.content,
                    rounds := s.rounds, status := s.status,
                    debug_logs := s.debug_logs })

/-- The `try` body of `run`.  Early returns (instruction failure, no
workflow) are `.ok` failure results; an exception anywhere in the step loop
surfaces as `.error` for the top-level handler.  The `if not workflow:`
test uses Python truthiness: `None` and an empty list are both rejected. -/
def run_try (env : Env) (s0 : AgentState) : AgentState × Except Exn RunResult :=
  let s := update_status "running" s0
  let s := log_debug ("Starting run with task: " ++ s.task_input) s
  let pb := build_system_instruction env s
  match pb.2 with
  | false =>
      (pb.1, .ok { agent_name := pb.1.agent_name,
                   result := some "Failed to build system instruction",
                   rounds := pb.1.rounds, status := pb.1.status,
                   debug_logs := pb.1.debug_logs })
  | true =>
      let pp := planningPhase env pb.1
      match pp.2 with
      | some (st :: rest) => execute_workflow env (st :: rest) pp.1
      | _ =>
          let s := update_status "failed" pp.1
          (s, .ok { agent_name := s.agent_name,
                    result := some "Failed to generate a valid workflow.",
                    rounds := s.rounds, status := s.status,
                    debug_logs := s.debug_logs })

/-- `run`: the `try` body with the single top-level `except` handler, which
logs the exception with its stack trace, forces status `error`, and returns
a failure result instead of raising (the return type has no exception
component: `run` never raises to its caller). -/
def run (env : Env) (s : AgentState) : AgentState × RunResult :=
  let p := run_try env s
  match p.2 with
  | .ok r => (p.1, r)
  | .error e =>
      let s := update_status "error" p.1
      let s := log_error "Error during execution" (some e) s
      (s, { agent_name := s.agent_name,
            result := some ("Error occurred during execution: " ++ e.msg),
            rounds := s.rounds, status := s.status,
            error := some e.msg, debug_logs := s.debug_logs })

/-- A debug-log message records a status transition iff it carries the
16-character marker `"Status changed: "` that `_update_status` writes. -/
def isStatusChangeMsg (m : String) : Bool :=
  m.data.take 16 == "Status changed: ".data

/-- Replaying `debug_logs`: the subsequence of messages that record status
transitions, in append order. -/
def statusTrail (logs : List LogEntry) : List String :=
  (logs.map (fun e => e.message)).filter isStatusChangeMsg

/-- The conversation delta left by `n` consecutive rejected planning
attempts starting after `j` earlier attempts. -/
def failMsgs (j n : Nat) : List Message :=
  match n with
  | 0 => []
  | n + 1 => failNotice (j + 1) :: failMsgs (j + 1) n

/-- A concrete, fully benign environment (transport always answers,
validator always rejects, configuration readable), used to instantiate
hypotheses at concrete inputs. -/
def envAllOk : Env :=
  { sendRequest := fun _ _ => Except.ok "resp",
    checkWorkflow := fun _ => none,
    preSelectTools := fun l => Except.ok l,
    config_description := Except.ok "dsc",
    tool_info_json := Except.ok "[]" }

/-- A concrete environment whose configuration access raises, producing an
instruction-build failure. -/
def envBadConfig : Env :=
  { envAllOk with config_description := Except.error { msg := "KeyError", tb := "tb" } }

/-- A concrete environment whose transport answers the first request and
raises on every later one (so the second step of a manual run fails). -/
def envFailStep2 : Env :=
  { envAllOk with
    sendRequest := fun i _ =>
      match i with
      | 0 => Except.ok "r0"
      | _ => Except.error { msg := "boom", tb := "tb" } }

/-! ### Bookkeeping lemmas: the logging helpers touch only `debug_logs`,
`clock` and (for `update_status`) `status`. -/

@[simp] theorem log_debug_messages (m : String) (s : AgentState) :
    (log_debug m s).messages = s.messages := rfl

@[simp] theorem log_debug_status (m : String) (s : AgentState) :
    (log_debug m s).status = s.status := rfl

@[simp] theorem log_debug_rounds (m : String) (s : AgentState) :
    (log_debug m s).rounds = s.rounds := rfl

@[simp] theorem log_debug_llm_calls (m : String) (s : AgentState) :
    (log_debug m s).llm_calls = s.llm_calls := rfl

@[simp] theorem log_debug_trace (m : String) (s : AgentState) :
    (log_debug m s).trace = s.trace := rfl

@[simp] theorem log_debug_mode (m : String) (s : AgentState) :
    (log_debug m s).workflow_mode = s.workflow_mode := rfl

@[simp] theorem log_debug_budget (m : String) (s : AgentState) :
    (log_debug m s).plan_max_fail_times = s.plan_max_fail_times := rfl

@[simp] theorem log_debug_name (m : String) (s : AgentState) :
    (log_debug m s).agent_name = s.agent_name := rfl

@[simp] theorem log_debug_task (m : String) (s : AgentState) :
    (log_debug m s).task_input = s.task_input := rfl

@[simp] theorem log_debug_logs (m : String) (s : AgentState) :
    (log_debug m s).debug_logs = s.debug_logs ++
      [{ type := "debug", message := m, timestamp := s.clock }] := rfl

@[simp] theorem log_debug_clock (m : String) (s : AgentState) :
    (log_debug m s).clock = s.clock + 1 := rfl

@[simp] theorem log_error_clock (m : String) (e : Option Exn) (s : AgentState) :
    (log_error m e s).clock = s.clock + 1 := by cases e <;> rfl

@[simp] theorem update_status_clock (x : String) (s : AgentState) :
    (update_status x s).clock = s.clock + 1 := rfl

@[simp] theorem log_error_messages (m : String) (e : Option Exn) (s : AgentState) :
    (log_error m e s).messages = s.messages := by cases e <;> rfl

@[simp] theorem log_error_status (m : String) (e : Option Exn) (s : AgentState) :
    (log_error m e s).status = s.status := by cases e <;> rfl

@[simp] theorem log_error_rounds (m : String) (e : Option Exn) (s : AgentState) :
    (log_error m e s).rounds = s.rounds := by cases e <;> rfl

@[simp] theorem log_error_llm_calls (m : String) (e : Option Exn) (s : AgentState) :
    (log_error m e s).llm_calls = s.llm_calls := by cases e <;> rfl

@[simp] theorem log_error_trace (m : String) (e : Option Exn) (s : AgentState) :
    (log_error m e s).trace = s.trace := by cases e <;> rfl

@[simp] theorem log_error_mode (m : String) (e : Option Exn) (s : AgentState) :
    (log_error m e s).workflow_mode = s.workflow_mode := by cases e <;> rfl

@[simp] theorem log_error_budget (m : String) (e : Option Exn) (s : AgentState) :
    (log_error m e s).plan_max_fail_times = s.plan_max_fail_times := by cases e <;> rfl

@[simp] theorem log_error_name (m : String) (e : Option Exn) (s : AgentState) :
    (log_error m e s).agent_name = s.agent_name := by cases e <;> rfl

@[simp] theorem log_error_some_logs (m : String) (ex : Exn) (s : AgentState) :
    (log_error m (some ex) s).debug_logs = s.debug_logs ++
      [{ type := "error", message := m, timestamp := s.clock,
         error := some ex.msg, traceback := some ex.tb }] := rfl

@[simp] theorem update_status_messages (x : String) (s : AgentState) :
    (update_status x s).messages = s.messages := rfl

@[simp] theorem update_status_status (x : String) (s : AgentState) :
    (update_status x s).status = x := rfl

@[simp] theorem update_status_rounds (x : String) (s : AgentState) :
    (update_status x s).rounds = s.rounds := rfl

@[simp] theorem update_status_llm_calls (x : String) (s : AgentState) :
    (update_status x s).llm_calls = s.llm_calls := rfl

@[simp] theorem update_status_trace (x : String) (s : AgentState) :
    (update_status x s).trace = s.trace := rfl

@[simp] theorem update_status_mode (x : String) (s : AgentState) :
    (update_status x s).workflow_mode = s.workflow_mode := rfl

@[simp] theorem update_status_budget (x : String) (s : AgentState) :
    (update_status x s).plan_max_fail_times = s.plan_max_fail_times := rfl

@[simp] theorem update_status_name (x : String) (s : AgentState) :
    (update_status x s).agent_name = s.agent_name := rfl

@[simp] theorem update_status_task (x : String) (s : AgentState) :
    (update_status x s).task_input = s.task_input := rfl

@[simp] theorem update_status_logs (x : String) (s : AgentState) :
    (update_status x s).debug_logs = s.debug_logs ++
      [{ type := "debug",
         message := "Status changed: " ++ s.status ++ " -> " ++ x,
         timestamp := s.clock }] := rfl

/-! ### Claim theorems -/

/-- Claim C8: Manual-mode planning is deterministic: `manual_workflow` is a
pure function of the state, always returning the same fixed three-step
template (so any two calls from the same initial state return structurally
identical workflows), and it issues no language-model request (the request
counter and the observation trace are unchanged). -/
theorem C8_manual_workflow_deterministic_no_llm (s : AgentState) :
    (manual_workflow s).2 = some manualTemplate ∧
    (manual_workflow s).1.llm_calls = s.llm_calls ∧
    (manual_workflow s).1.trace = s.trace ∧
    manualTemplate.length = 3 := by
  refine ⟨rfl, ?_, ?_, rfl⟩ <;> simp [manual_workflow]

/-- Claim C9: `get_status` never raises: for every state and every possible
internal failure while assembling/serialising the snapshot, the result is an
`.ok` snapshot; in the failure case it is the degraded minimal snapshot with
the agent name, status `"error"`, the error description, the debug logs
(ending in the logged error entry) and a timestamp, and without the
`rounds`/`workflow_mode` keys. -/
theorem C9_get_status_never_raises (fault : Option Exn) (s : AgentState) :
    ∃ info, (get_status fault s).2 = Except.ok info ∧
      (∀ e, fault = some e →
        info.agent_name = s.agent_name ∧ info.status = "error" ∧
        info.error = some e.msg ∧ info.rounds = none ∧
        info.workflow_mode = none ∧
        info.debug_logs = s.debug_logs ++
          [{ type := "debug", message := "Status requested", timestamp := s.clock },
           { type := "error", message := "Error getting status: " ++ e.msg,
             timestamp := s.clock + 1, error := some e.msg, traceback := some e.tb }] ∧
        info.timestamp = s.clock + 2) := by
  cases fault with
  | none =>
      refine ⟨_, rfl, ?_⟩
      intro e h
      exact absurd h (by simp)
  | some e0 =>
      refine ⟨_, rfl, ?_⟩
      intro e h
      obtain rfl : e0 = e := by injection h
      refine ⟨rfl, rfl, rfl, rfl, rfl, ?_, rfl⟩
      simp [get_status, get_status_try, log_debug]

/-- Witness for C9 at a concrete faulting snapshot assembly. -/
theorem C9_witness :
    ∃ info, (get_status (some { msg := "ser", tb := "tb" }) (initAgent "m" "t")).2 =
        Except.ok info ∧
      info.status = "error" ∧ info.error = some "ser" ∧ info.rounds = none := by
  obtain ⟨info, h1, h2⟩ :=
    C9_get_status_never_raises (some { msg := "ser", tb := "tb" }) (initAgent "m" "t")
  obtain ⟨_, hs, he, hr, _⟩ := h2 _ rfl
  exact ⟨info, h1, hs, he, hr⟩

/-- Claim C10: A step whose `tool_use` list is empty performs no tool
resolution: the observation trace gains exactly one event — the
language-model call — whose query offers no tools (`tools = none`); in
particular no `toolSelect` event occurs and `pre_select_tools` is never
consulted. -/
theorem C10_empty_tool_use_skips_resolution (env : Env) (i : Nat) (step : Step)
    (s : AgentState) (h : step.tool_use = []) :
    (exec_step env i step s).1.trace =
      s.trace ++ [Event.llmCall
        { messages := s.messages ++ [stepPrompt i step], tools := none,
          action_type := some step.action_type, message_return_type := none }] := by
  unfold exec_step exec_step_send
  rw [h]
  simp only [List.isEmpty_nil, if_true]
  split <;> simp [log_debug]

/-- Witness for C10: the second step of the manual template has an empty
`tool_use`; executing it from a fresh state records exactly one LLM call
carrying no tools. -/
theorem C10_witness :
    (exec_step
        { sendRequest := fun _ _ => Except.ok "r",
          checkWorkflow := fun _ => none,
          preSelectTools := fun l => Except.ok l,
          config_description := Except.ok "d",
          tool_info_json := Except.ok "[]" }
        0
        { action_type := "chat",
          action := "Analyze the mathematical problem and provide solution steps",
          tool_use := [] }
        (initAgent "m" "t")).1.trace =
      [Event.llmCall
        { messages := [stepPrompt 0
            { action_type := "chat",
              action := "Analyze the mathematical problem and provide solution steps",
              tool_use := [] }],
          tools := none, action_type := some "chat",
          message_return_type := none }] :=
  C10_empty_tool_use_skips_resolution _ 0 _ (initAgent "m" "t") rfl

/-- The retry loop under an always-rejecting validator and a non-raising
transport: every attempt issues one request, increments `rounds`, appends
one failure notice, and after `n` attempts the loop gives up with status
`workflow_generation_failed`. -/
theorem automatic_attempts_all_rejected (env : Env) (f : Nat → LLMQuery → String)
    (hok : ∀ i q, env.sendRequest i q = Except.ok (f i q))
    (hrej : ∀ r, truthy (env.checkWorkflow r) = false) :
    ∀ n j s, (automatic_attempts env n j s).2 = Except.ok none ∧
      (automatic_attempts env n j s).1.status = "workflow_generation_failed" ∧
      (automatic_attempts env n j s).1.rounds = s.rounds + n ∧
      (automatic_attempts env n j s).1.llm_calls = s.llm_calls + n ∧
      (automatic_attempts env n j s).1.messages = s.messages ++ failMsgs j n := by
  intro n
  induction n with
  | zero =>
      intro j s
      refine ⟨rfl, ?_, ?_, ?_, ?_⟩ <;> simp [automatic_attempts, failMsgs]
  | succ n ih =>
      intro j s
      simp only [automatic_attempts, hok, hrej, Bool.false_eq_true, if_false]
      obtain ⟨h1, h2, h3, h4, h5⟩ := ih (j + 1)
        { s with
          trace := s.trace ++ [Event.llmCall
            { messages := s.messages, tools := none, action_type := none,
              message_return_type := some "json" }],
          llm_calls := s.llm_calls + 1,
          rounds := s.rounds + 1,
          messages := s.messages ++ [failNotice (j + 1)] }
      simp only at h3 h4 h5
      refine ⟨h1, h2, ?_, ?_, ?_⟩
      · rw [h3]; omega
      · rw [h4]; omega
      · rw [h5]
        rw [List.append_assoc]
        rfl

/-- Claim C2: Automatic planning under a validator that rejects every
candidate and a transport that answers every request: `automatic_workflow`
issues exactly `plan_max_fail_times` language-model requests, appends one
failure-notice message to the conversation per rejected attempt, increments
the round counter once per attempt, and then returns no workflow with
status `"workflow_generation_failed"`; freshly constructed agents have
`plan_max_fail_times = 3`. -/
theorem C2_automatic_budget_exhaustion (env : Env) (f : Nat → LLMQuery → String)
    (s : AgentState)
    (hok : ∀ i q, env.sendRequest i q = Except.ok (f i q))
    (hrej : ∀ r, truthy (env.checkWorkflow r) = false) :
    (automatic_workflow env s).2 = none ∧
    (automatic_workflow env s).1.status = "workflow_generation_failed" ∧
    (automatic_workflow env s).1.rounds = s.rounds + s.plan_max_fail_times ∧
    (automatic_workflow env s).1.llm_calls = s.llm_calls + s.plan_max_fail_times ∧
    (automatic_workflow env s).1.messages = s.messages ++ failMsgs 0 s.plan_max_fail_times ∧
    (∀ a b, (initAgent a b).plan_max_fail_times = 3) := by
  have hp := automatic_attempts_all_rejected env f hok hrej
    (update_status "generating_workflow" s).plan_max_fail_times 0
    (update_status "generating_workflow" s)
  rcases he : automatic_attempts env
      (update_status "generating_workflow" s).plan_max_fail_times 0
      (update_status "generating_workflow" s) with ⟨s2, r⟩
  rw [he] at hp
  obtain ⟨h1, h2, h3, h4, h5⟩ := hp
  simp at h1 h2 h3 h4 h5
  subst h1
  have hrun : automatic_workflow env s = (s2, none) := by
    simp only [automatic_workflow]
    rw [he]
  rw [hrun]
  exact ⟨rfl, h2, h3, h4, h5, fun a b => rfl⟩

/-- Witness for C2: a concrete always-rejecting validator exhausts the
default budget of 3. -/
theorem C2_witness :
    (automatic_workflow
        { sendRequest := fun _ _ => Except.ok "resp",
          checkWorkflow := fun _ => none,
          preSelectTools := fun l => Except.ok l,
          config_description := Except.ok "d",
          tool_info_json := Except.ok "[]" }
        (initAgent "m" "t")).2 = none ∧
    (automatic_workflow
        { sendRequest := fun _ _ => Except.ok "resp",
          checkWorkflow := fun _ => none,
          preSelectTools := fun l => Except.ok l,
          config_description := Except.ok "d",
          tool_info_json := Except.ok "[]" }
        (initAgent "m" "t")).1.status = "workflow_generation_failed" ∧
    (automatic_workflow
        { sendRequest := fun _ _ => Except.ok "resp",
          checkWorkflow := fun _ => none,
          preSelectTools := fun l => Except.ok l,
          config_description := Except.ok "d",
          tool_info_json := Except.ok "[]" }
        (initAgent "m" "t")).1.rounds = 3 := by
  obtain ⟨h1, h2, h3, _⟩ := C2_automatic_budget_exhaustion
    { sendRequest := fun _ _ => Except.ok "resp",
      checkWorkflow := fun _ => none,
      preSelectTools := fun l => Except.ok l,
      config_description := Except.ok "d",
      tool_info_json := Except.ok "[]" }
    (fun _ _ => "resp") (initAgent "m" "t") (fun _ _ => rfl) (fun _ => rfl)
  exact ⟨h1, h2, h3⟩

/-! ### The conversation is append-only in every component except the
automatic-mode truncation in `run` -/

theorem messages_extend_trans {a b c : List Message}
    (h1 : ∃ t, b = a ++ t) (h2 : ∃ t, c = b ++ t) : ∃ t, c = a ++ t := by
  obtain ⟨t1, rfl⟩ := h1
  obtain ⟨t2, rfl⟩ := h2
  exact ⟨t1 ++ t2, by rw [List.append_assoc]⟩

theorem automatic_attempts_messages_extend (env : Env) :
    ∀ n j s, ∃ t, (automatic_attempts env n j s).1.messages = s.messages ++ t := by
  intro n
  induction n with
  | zero => intro j s; exact ⟨[], by simp [automatic_attempts]⟩
  | succ n ih =>
      intro j s
      simp only [automatic_attempts]
      split
      · exact ⟨[], by simp⟩
      · split
        · exact ⟨[], by simp⟩
        · exact messages_extend_trans ⟨[failNotice (j + 1)], by simp⟩ (ih (j + 1) _)

theorem automatic_workflow_messages_extend (env : Env) (s : AgentState) :
    ∃ t, (automatic_workflow env s).1.messages = s.messages ++ t := by
  obtain ⟨t, ht⟩ := automatic_attempts_messages_extend env
    (update_status "generating_workflow" s).plan_max_fail_times 0
    (update_status "generating_workflow" s)
  simp only [update_status_messages] at ht
  simp only [automatic_workflow]
  rcases he : automatic_attempts env
      (update_status "generating_workflow" s).plan_max_fail_times 0
      (update_status "generating_workflow" s) with ⟨s2, r⟩
  rw [he] at ht
  simp only at ht
  cases r with
  | ok wf => exact ⟨t, by simpa using ht⟩
  | error e => exact ⟨t, by simpa using ht⟩

theorem build_messages_extend (env : Env) (s : AgentState) :
    ∃ t, (build_system_instruction env s).1.messages = s.messages ++ t := by
  simp only [build_system_instruction]
  split
  · exact ⟨[], by simp⟩
  · rename_i pfx_ heq1
    split
    · exact ⟨[], by simp⟩
    · rename_i tij heq2
      split
      · exact ⟨[{ role := "system", content := pfx_ }], by simp⟩
      · split
        · exact ⟨[{ role := "system", content := pfx_ },
                  { role := "user", content := planInstruction tij }], by simp⟩
        · exact ⟨[], by simp⟩

theorem build_mode_preserved (env : Env) (s : AgentState) :
    (build_system_instruction env s).1.workflow_mode = s.workflow_mode := by
  simp only [build_system_instruction]
  split
  · simp
  · split
    · simp
    · split
      · simp
      · split <;> simp

theorem exec_step_messages_extend (env : Env) (i : Nat) (st : Step) (s : AgentState) :
    ∃ t, (exec_step env i st s).1.messages = s.messages ++ t := by
  simp only [exec_step, exec_step_send]
  split
  · split
    · exact ⟨[stepPrompt i st], by simp⟩
    · rename_i resp heq
      exact ⟨[stepPrompt i st, { role := "assistant", content := resp }],
        by simp [List.append_assoc]⟩
  · split
    · exact ⟨[stepPrompt i st], by simp⟩
    · split
      · exact ⟨[stepPrompt i st], by simp⟩
      · rename_i resp heq
        exact ⟨[stepPrompt i st, { role := "assistant", content := resp }],
          by simp [List.append_assoc]⟩

theorem exec_steps_messages_extend (env : Env) :
    ∀ steps i s, ∃ t, (exec_steps env i steps s).1.messages = s.messages ++ t := by
  intro steps
  induction steps with
  | nil => intro i s; exact ⟨[], by simp [exec_steps]⟩
  | cons st rest ih =>
      intro i s
      simp only [exec_steps]
      rcases hp : exec_step env i st s with ⟨s1, r⟩
      have h := exec_step_messages_extend env i st s
      rw [hp] at h
      simp only at h
      cases r with
      | ok u =>
          show ∃ t, (exec_steps env (i + 1) rest s1).1.messages = s.messages ++ t
          exact messages_extend_trans h (ih (i + 1) s1)
      | error e =>
          show ∃ t, s1.messages = s.messages ++ t
          exact h

/-- In manual mode the planning phase only appends the task-input user
message: no truncation occurs. -/
theorem planningPhase_manual (env : Env) (s : AgentState)
    (hm : s.workflow_mode = "manual") :
    (planningPhase env s).1.messages =
      s.messages ++ [{ role := "user", content := s.task_input }] := by
  simp [planningPhase, obtainWorkflow, hm, manual_workflow]

/-- In automatic mode, whatever planning does (accept, reject every attempt,
or die on a transport exception), the conversation right after the planning
phase is the first entry of the conversation the phase started from: the
planning exchange and the freshly appended task-input message are gone. -/
theorem planningPhase_automatic_take (env : Env) (s : AgentState)
    (hm : s.workflow_mode = "automatic") (hne : s.messages ≠ []) :
    (planningPhase env s).1.messages = s.messages.take 1 := by
  simp only [planningPhase, obtainWorkflow]
  obtain ⟨t, ht⟩ := automatic_workflow_messages_extend env
    { s with messages := s.messages ++ [{ role := "user", content := s.task_input }] }
  rcases haw : automatic_workflow env
      { s with messages := s.messages ++ [{ role := "user", content := s.task_input }] }
    with ⟨s1, wf⟩
  rw [haw] at ht
  simp only at ht
  simp only [hm, beq_self_eq_true, if_true]
  show List.take 1 s1.messages = List.take 1 s.messages
  rw [ht, List.append_assoc]
  exact List.take_append_of_le_length (List.length_pos.mpr hne)

theorem execute_workflow_messages_extend (env : Env) (w : Workflow) (s : AgentState) :
    ∃ t, (execute_workflow env w s).1.messages = s.messages ++ t := by
  simp only [execute_workflow]
  rcases hes : exec_steps env 0 w
      (update_status "executing_workflow" { s with messages := s.messages ++ [thinkingMsg w] })
    with ⟨s5, r5⟩
  have h5 := exec_steps_messages_extend env w 0
    (update_status "executing_workflow" { s with messages := s.messages ++ [thinkingMsg w] })
  rw [hes] at h5
  simp only at h5
  obtain ⟨t6, ht6⟩ : ∃ t, s5.messages = s.messages ++ t :=
    messages_extend_trans ⟨[thinkingMsg w], rfl⟩ h5
  cases r5 with
  | error e => exact ⟨t6, by simpa using ht6⟩
  | ok u =>
      cases hgl : s5.messages.getLast? with
      | none => exact ⟨t6, by simpa [hgl] using ht6⟩
      | some m => exact ⟨t6, by simpa [hgl] using ht6⟩

theorem run_try_messages_extend_manual (env : Env) (s : AgentState)
    (hm : s.workflow_mode = "manual") :
    ∃ t, (run_try env s).1.messages = s.messages ++ t := by
  simp only [run_try]
  rcases hb : build_system_instruction env
      (log_debug ("Starting run with task: " ++ (update_status "running" s).task_input)
        (update_status "running" s)) with ⟨s2, b⟩
  have hbm := build_messages_extend env
    (log_debug ("Starting run with task: " ++ (update_status "running" s).task_input)
      (update_status "running" s))
  have hbw := build_mode_preserved env
    (log_debug ("Starting run with task: " ++ (update_status "running" s).task_input)
      (update_status "running" s))
  rw [hb] at hbm hbw
  simp only [log_debug_messages, update_status_messages, log_debug_mode,
    update_status_mode] at hbm hbw
  cases b with
  | false => exact ⟨hbm.choose, by simpa using hbm.choose_spec⟩
  | true =>
      have hmode2 : s2.workflow_mode = "manual" := hbw.trans hm
      have hpm := planningPhase_manual env s2 hmode2
      dsimp only
      rcases hp : planningPhase env s2 with ⟨s3, wf⟩
      rw [hp] at hpm
      simp only at hpm
      have h3 : ∃ t, s3.messages = s.messages ++ t :=
        messages_extend_trans hbm ⟨_, hpm⟩
      dsimp only
      split
      · exact messages_extend_trans h3 (execute_workflow_messages_extend env _ s3)
      · exact ⟨h3.choose, by simpa using h3.choose_spec⟩

/-- The top-level handler only logs, so `run` in manual mode only ever
appends to the conversation. -/
theorem run_messages_extend_manual (env : Env) (s : AgentState)
    (hm : s.workflow_mode = "manual") :
    ∃ t, (run env s).1.messages = s.messages ++ t := by
  have h := run_try_messages_extend_manual env s hm
  simp only [run]
  rcases hr : run_try env s with ⟨x, r⟩
  rw [hr] at h
  simp only at h
  cases r with
  | ok v => exact ⟨h.choose, by simpa using h.choose_spec⟩
  | error e => exact ⟨h.choose, by simpa using h.choose_spec⟩

/-- Claim C4: In automatic mode the conversation is truncated to its first
entry by the planning phase (which runs after instruction building and
before any step executes), discarding the planning exchange; in manual mode
no truncation ever occurs: `manual_workflow` leaves the conversation
unchanged, and a whole manual run only ever appends to it. -/
theorem C4_automatic_truncates_manual_never (env : Env) (s : AgentState) :
    (s.workflow_mode = "automatic" → s.messages ≠ [] →
      (planningPhase env s).1.messages = s.messages.take 1) ∧
    (s.workflow_mode = "manual" →
      (manual_workflow s).1.messages = s.messages ∧
      ∃ t, (run env s).1.messages = s.messages ++ t) := by
  constructor
  · intro hm hne
    exact planningPhase_automatic_take env s hm hne
  · intro hm
    exact ⟨by simp [manual_workflow], run_messages_extend_manual env s hm⟩

/-- Witness for C4: both conjuncts at concrete states. -/
theorem C4_witness :
    (planningPhase envAllOk
        { initAgent "m" "t" with
          workflow_mode := "automatic",
          messages := [{ role := "system", content := "dsc" }] }).1.messages =
      [{ role := "system", content := "dsc" }] ∧
    ((manual_workflow (initAgent "m" "t")).1.messages = [] ∧
     ∃ t, (run envAllOk (initAgent "m" "t")).1.messages = [] ++ t) := by
  constructor
  · exact (C4_automatic_truncates_manual_never envAllOk
      { initAgent "m" "t" with
        workflow_mode := "automatic",
        messages := [{ role := "system", content := "dsc" }] }).1 rfl (by decide)
  · exact (C4_automatic_truncates_manual_never envAllOk (initAgent "m" "t")).2 rfl

/-- Claim C5: In an automatic-mode run with a readable configuration, the
state reached after instruction building has the conversation
`[system, plan-instruction]`; whatever the planning phase then does
(accept, reject, or fail), the conversation immediately after it is exactly
`[system message]` — in particular the task-input user message appended at
the start of the planning phase has also been discarded, so step execution
or the planning-failure return proceeds without the original task text. -/
theorem C5_truncation_also_drops_task_input (env : Env) (a t d tij : String)
    (hconf : env.config_description = Except.ok d)
    (htool : env.tool_info_json = Except.ok tij) :
    ∃ s2, build_system_instruction env
        (log_debug ("Starting run with task: " ++ t)
          (update_status "running" { initAgent a t with workflow_mode := "automatic" })) =
        (s2, true) ∧
      s2.messages = [{ role := "system", content := d },
                     { role := "user", content := planInstruction tij }] ∧
      (planningPhase env s2).1.messages = [{ role := "system", content := d }] := by
  have hb2 : (build_system_instruction env
      (log_debug ("Starting run with task: " ++ t)
        (update_status "running" { initAgent a t with workflow_mode := "automatic" }))).2
        = true ∧
      (build_system_instruction env
      (log_debug ("Starting run with task: " ++ t)
        (update_status "running" { initAgent a t with workflow_mode := "automatic" }))).1.messages
        = [{ role := "system", content := d },
           { role := "user", content := planInstruction tij }] := by
    constructor <;> simp [build_system_instruction, hconf, htool, initAgent]
  have hbw := build_mode_preserved env
    (log_debug ("Starting run with task: " ++ t)
      (update_status "running" { initAgent a t with workflow_mode := "automatic" }))
  rcases hb : build_system_instruction env
      (log_debug ("Starting run with task: " ++ t)
        (update_status "running" { initAgent a t with workflow_mode := "automatic" }))
    with ⟨s2, b⟩
  rw [hb] at hb2 hbw
  simp only at hb2 hbw
  obtain ⟨hbt, hbm⟩ := hb2
  subst hbt
  refine ⟨s2, rfl, hbm, ?_⟩
  have hmode2 : s2.workflow_mode = "automatic" := by simpa using hbw
  have hne : s2.messages ≠ [] := by rw [hbm]; simp
  rw [planningPhase_automatic_take env s2 hmode2 hne, hbm]
  rfl

/-- Witness for C5 at a concrete environment. -/
theorem C5_witness :
    ∃ s2, build_system_instruction envAllOk
        (log_debug ("Starting run with task: " ++ "t")
          (update_status "running" { initAgent "a" "t" with workflow_mode := "automatic" })) =
        (s2, true) ∧
      s2.messages = [{ role := "system", content := "dsc" },
                     { role := "user", content := planInstruction "[]" }] ∧
      (planningPhase envAllOk s2).1.messages = [{ role := "system", content := "dsc" }] :=
  C5_truncation_also_drops_task_input envAllOk "a" "t" "dsc" "[]" rfl rfl

/-- Claim C6, counterexample: The claim "on every failing run the `result`
field is absent" is false: a run that fails at instruction building (the
configuration access raises) still returns a RunResult whose `result` key
is present, carrying the fixed failure string. -/
theorem C6_counterexample :
    (run envBadConfig (initAgent "m" "t")).2.status = "error" ∧
    (run envBadConfig (initAgent "m" "t")).2.result =
      some "Failed to build system instruction" :=
  ⟨rfl, rfl⟩

/-- Every `.ok` outcome of the `run` body carries a present `result`. -/
theorem execute_workflow_result_present (env : Env) (w : Workflow) (s s1 : AgentState)
    (r : RunResult) (h : execute_workflow env w s = (s1, Except.ok r)) :
    r.result.isSome = true := by
  simp only [execute_workflow] at h
  split at h
  · simp at h
  · split at h
    · simp at h
    · rw [Prod.mk.injEq] at h
      obtain ⟨-, h2⟩ := h
      injection h2 with h2
      subst h2
      rfl

theorem run_try_result_present (env : Env) (s s1 : AgentState) (r : RunResult)
    (h : run_try env s = (s1, Except.ok r)) : r.result.isSome = true := by
  simp only [run_try] at h
  split at h
  · rw [Prod.mk.injEq] at h
    obtain ⟨-, h2⟩ := h
    injection h2 with h2
    subst h2
    rfl
  · split at h
    · exact execute_workflow_result_present env _ _ s1 r h
    · rw [Prod.mk.injEq] at h
      obtain ⟨-, h2⟩ := h
      injection h2 with h2
      subst h2
      rfl

/-- Claim C6, amended: On every run — successful or failing — the returned
RunResult's `result` field is present (on the three failure paths it holds
the fixed failure or error-description string, as the counterexample
shows), alongside `agent_name`, `rounds`, `status` and `debug_logs`, which
the RunResult record always carries. -/
theorem C6_amended_result_always_present (env : Env) (s : AgentState) :
    ((run env s).2).result.isSome = true := by
  simp only [run]
  rcases hr : run_try env s with ⟨x, r⟩
  cases r with
  | ok v => simpa using run_try_result_present env s x v hr
  | error e => simp

/-! ### Full evaluation of manual-mode runs -/

theorem data_append (u v : String) : (u ++ v).data = u.data ++ v.data := rfl

theorem isSCM_append (a b : String) (h : 16 ≤ a.data.length) :
    isStatusChangeMsg (a ++ b) = isStatusChangeMsg a := by
  unfold isStatusChangeMsg
  rw [data_append, List.take_append_of_le_length h]

theorem isSCM_init_msg (x y : String) :
    isStatusChangeMsg
      ("MathAgent initialized with name: " ++ x ++ ", task: " ++ y) = false := by
  have hA : (16 : Nat) ≤ "MathAgent initialized with name: ".data.length := by decide
  have h1 : 16 ≤ ("MathAgent initialized with name: " ++ x).data.length := by
    rw [data_append, List.length_append]; omega
  have h2 : 16 ≤ ("MathAgent initialized with name: " ++ x ++ ", task: ").data.length := by
    rw [data_append, List.length_append]; omega
  rw [isSCM_append _ _ h2, isSCM_append _ _ h1, isSCM_append _ _ hA]
  decide

theorem isSCM_start_msg (x : String) :
    isStatusChangeMsg ("Starting run with task: " ++ x) = false := by
  have hA : (16 : Nat) ≤ "Starting run with task: ".data.length := by decide
  rw [isSCM_append _ _ hA]
  decide

/-- Claim C3: A manual-mode run in which instruction building and all three
step requests succeed returns `status = "completed"`, `rounds = 3` (one
language-model round-trip per step of the fixed three-step template), the
total number of issued language-model requests is also 3 (so planning made
none), and `result` equals the content of the last appended message, which
is an assistant message. -/
theorem C3_manual_run_success (env : Env) (nm tk d tij : String) (ts : List String)
    (f0 f1 f2 : LLMQuery → String)
    (hconf : env.config_description = Except.ok d)
    (htool : env.tool_info_json = Except.ok tij)
    (hps : env.preSelectTools ["demo_author/arxiv"] = Except.ok ts)
    (h0 : ∀ q, env.sendRequest 0 q = Except.ok (f0 q))
    (h1 : ∀ q, env.sendRequest 1 q = Except.ok (f1 q))
    (h2 : ∀ q, env.sendRequest 2 q = Except.ok (f2 q)) :
    (run env (initAgent nm tk)).2.status = "completed" ∧
    (run env (initAgent nm tk)).2.rounds = 3 ∧
    (run env (initAgent nm tk)).1.llm_calls = 3 ∧
    Option.map Message.role ((run env (initAgent nm tk)).1.messages.getLast?) =
      some "assistant" ∧
    (run env (initAgent nm tk)).2.result =
      Option.map Message.content ((run env (initAgent nm tk)).1.messages.getLast?) := by
  refine ⟨?_, ?_, ?_, ?_, ?_⟩ <;>
    simp [run, run_try, initAgent, build_system_instruction, planningPhase,
      obtainWorkflow, manual_workflow, manualTemplate, execute_workflow, exec_steps,
      exec_step, exec_step_send, truthy, hconf, htool, hps, h0, h1, h2]

/-- Witness for C3 at a concrete environment. -/
theorem C3_witness :
    (run envAllOk (initAgent "m" "t")).2.status = "completed" ∧
    (run envAllOk (initAgent "m" "t")).2.rounds = 3 ∧
    (run envAllOk (initAgent "m" "t")).1.llm_calls = 3 ∧
    Option.map Message.role ((run envAllOk (initAgent "m" "t")).1.messages.getLast?) =
      some "assistant" ∧
    (run envAllOk (initAgent "m" "t")).2.result =
      Option.map Message.content ((run envAllOk (initAgent "m" "t")).1.messages.getLast?) :=
  C3_manual_run_success envAllOk "m" "t" "dsc" "[]" ["demo_author/arxiv"]
    (fun _ => "resp") (fun _ => "resp") (fun _ => "resp") rfl rfl rfl
    (fun _ => rfl) (fun _ => rfl) (fun _ => rfl)

/-- Claim C7: Replaying `debug_logs` of a successful manual run: the
subsequence of status-transition entries, in append order, is exactly
`initialized → running → building_system_instruction →
system_instruction_built → generating_workflow → workflow_generated →
executing_workflow → completed` (seven transitions visiting the eight
states in order); the log is append-only, so the transitions appear exactly
as they occurred. -/
theorem C7_manual_run_status_trail (env : Env) (nm tk d tij : String)
    (ts : List String) (f0 f1 f2 : LLMQuery → String)
    (hconf : env.config_description = Except.ok d)
    (htool : env.tool_info_json = Except.ok tij)
    (hps : env.preSelectTools ["demo_author/arxiv"] = Except.ok ts)
    (h0 : ∀ q, env.sendRequest 0 q = Except.ok (f0 q))
    (h1 : ∀ q, env.sendRequest 1 q = Except.ok (f1 q))
    (h2 : ∀ q, env.sendRequest 2 q = Except.ok (f2 q)) :
    statusTrail (run env (initAgent nm tk)).2.debug_logs =
      ["Status changed: initialized -> running",
       "Status changed: running -> building_system_instruction",
       "Status changed: building_system_instruction -> system_instruction_built",
       "Status changed: system_instruction_built -> generating_workflow",
       "Status changed: generating_workflow -> workflow_generated",
       "Status changed: workflow_generated -> executing_workflow",
       "Status changed: executing_workflow -> completed"] := by
  simp +decide [run, run_try, initAgent, build_system_instruction, planningPhase,
    obtainWorkflow, manual_workflow, manualTemplate, execute_workflow, exec_steps,
    exec_step, exec_step_send, truthy, statusTrail, isSCM_init_msg, isSCM_start_msg,
    hconf, htool, hps, h0, h1, h2]

/-- Witness for C7 at a concrete environment. -/
theorem C7_witness :
    statusTrail (run envAllOk (initAgent "m" "t")).2.debug_logs =
      ["Status changed: initialized -> running",
       "Status changed: running -> building_system_instruction",
       "Status changed: building_system_instruction -> system_instruction_built",
       "Status changed: system_instruction_built -> generating_workflow",
       "Status changed: generating_workflow -> workflow_generated",
       "Status changed: workflow_generated -> executing_workflow",
       "Status changed: executing_workflow -> completed"] :=
  C7_manual_run_status_trail envAllOk "m" "t" "dsc" "[]" ["demo_author/arxiv"]
    (fun _ => "resp") (fun _ => "resp") (fun _ => "resp") rfl rfl rfl
    (fun _ => rfl) (fun _ => rfl) (fun _ => rfl)

/-- Claim C1: When the second step's language-model request raises (any
exception, any responses elsewhere), the exception is not recovered inside
the step loop: the remaining step is aborted (only 2 of 3 requests were
ever issued), the exception is caught once at the top level of `run`
(exactly one error entry in the whole log — the top-level one, carrying the
error description and the captured stack trace, appended last), status is
forced to `"error"`, and `run` returns a failure RunResult (its return type
carries no exception: it cannot raise) with `rounds = 1` — only the first
step completed. -/
theorem C1_step_exception_top_level (env : Env) (nm tk d tij : String)
    (ts : List String) (f0 : LLMQuery → String) (ex : Exn)
    (hconf : env.config_description = Except.ok d)
    (htool : env.tool_info_json = Except.ok tij)
    (hps : env.preSelectTools ["demo_author/arxiv"] = Except.ok ts)
    (h0 : ∀ q, env.sendRequest 0 q = Except.ok (f0 q))
    (h1 : ∀ q, env.sendRequest 1 q = Except.error ex) :
    (run env (initAgent nm tk)).2.status = "error" ∧
    (run env (initAgent nm tk)).2.rounds = 1 ∧
    (run env (initAgent nm tk)).2.error = some ex.msg ∧
    (run env (initAgent nm tk)).2.result =
      some ("Error occurred during execution: " ++ ex.msg) ∧
    (run env (initAgent nm tk)).1.llm_calls = 2 ∧
    (run env (initAgent nm tk)).2.debug_logs.getLast? = some
      { type := "error", message := "Error during execution", timestamp := 12,
        error := some ex.msg, traceback := some ex.tb } ∧
    ((run env (initAgent nm tk)).2.debug_logs.filter
      (fun e => e.type == "error")).length = 1 := by
  refine ⟨?_, ?_, ?_, ?_, ?_, ?_, ?_⟩ <;>
    simp +decide [run, run_try, initAgent, build_system_instruction, planningPhase,
      obtainWorkflow, manual_workflow, manualTemplate, execute_workflow, exec_steps,
      exec_step, exec_step_send, truthy, hconf, htool, hps, h0, h1]

/-- Witness for C1 at a concrete environment failing on the second
request. -/
theorem C1_witness :
    (run envFailStep2 (initAgent "m" "t")).2.status = "error" ∧
    (run envFailStep2 (initAgent "m" "t")).2.rounds = 1 ∧
    (run envFailStep2 (initAgent "m" "t")).2.error = some "boom" ∧
    (run envFailStep2 (initAgent "m" "t")).2.result =
      some ("Error occurred during execution: " ++ "boom") ∧
    (run envFailStep2 (initAgent "m" "t")).1.llm_calls = 2 ∧
    (run envFailStep2 (initAgent "m" "t")).2.debug_logs.getLast? = some
      { type := "error", message := "Error during execution", timestamp := 12,
        error := some "boom", traceback := some "tb" } ∧
    ((run envFailStep2 (initAgent "m" "t")).2.debug_logs.filter
      (fun e => e.type == "error")).length = 1 :=
  C1_step_exception_top_level envFailStep2 "m" "t" "dsc" "[]" ["demo_author/arxiv"]
    (fun _ => "r0") { msg := "boom", tb := "tb" } rfl rfl rfl
    (fun _ => rfl) (fun _ => rfl)

end MathAgentModel
